import Mathlib

/-!
Shallow embedding of the product-catalog view in src/src/App.tsx
(src/unnamed/part_000 is the same component with different CSS classes).

The component owns four pieces of state (products, loading, currentPage,
hasMore).  The async function fetchProducts is modelled as a total state
transformer parameterised by the outcome of the network interaction; the
body of its try block is an Except computation, the catch/finally
structure is reproduced around it.  Rendering conditions from the JSX
are modelled as boolean predicates on the view state, and the two text
formatting expressions (price, rating) as string functions.
-/

/-- Rating sub-record of a product: average score and review count. -/
structure Rating where
  rate : ℚ
  count : Nat
deriving DecidableEq

/-- Product record, as declared by the interface Product in App.tsx. -/
structure Product where
  id : Nat
  title : String
  price : ℚ
  description : String
  category : String
  image : String
  rating : Rating
deriving DecidableEq

/-- The four useState pieces of the component's state. -/
structure ViewState where
  products : List Product
  loading : Bool
  currentPage : Nat
  hasMore : Bool
deriving DecidableEq

/-- Initial state from the useState initialisers:
products = [], loading = false, currentPage = 1, hasMore = true. -/
def initialState : ViewState :=
  { products := [], loading := false, currentPage := 1, hasMore := true }

/-- Outcome of one network interaction, as seen by fetchProducts:
the fetch promise resolves with an ok response whose body parses to a
product list (success), resolves with a non-ok response (httpError,
the code then throws), rejects (networkError), or the body fails to
parse (parseError). -/
inductive FetchOutcome where
  | success (data : List Product)
  | httpError
  | networkError
  | parseError
deriving DecidableEq

/-- Body of the try block of fetchProducts (lines 106-118): awaits the
delay and the response; throws on a non-ok response or a rejected
promise; on success replaces products, sets hasMore to (data.length > 0)
and currentPage to the requested page. -/
def tryBlock (page : Nat) (o : FetchOutcome) (s : ViewState) :
    Except String ViewState :=
  match o with
  | .networkError => .error "network error"
  | .httpError => .error "Failed to fetch products"
  | .parseError => .error "body parse error"
  | .success data =>
      .ok { s with
              products := data,
              hasMore := decide (data.length > 0),
              currentPage := page }

/-- The single message.error call in the catch block (line 121). -/
def errorToast : List String := ["Failed to load products. Please try again."]

/-- fetchProducts as a state transformer: sets loading := true, runs the
try block, catches any error with one toast, and in the finally block
sets loading := false.  Second component: the error notifications
emitted during the call. -/
def fetchProducts (page : Nat) (o : FetchOutcome) (s : ViewState) :
    ViewState × List String :=
  let s1 := { s with loading := true }
  match tryBlock page o s1 with
  | .ok s2 => ({ s2 with loading := false }, [])
  | .error _ => ({ s1 with loading := false }, errorToast)

/-- The promise returned by the async function fetchProducts: an error
raised in the try block is consumed by the catch block, so the promise
itself resolves with the post-call state and notifications. -/
def fetchProductsRun (page : Nat) (o : FetchOutcome) (s : ViewState) :
    Except String (ViewState × List String) :=
  let s1 := { s with loading := true }
  match tryBlock page o s1 with
  | .ok s2 => Except.ok ({ s2 with loading := false }, [])
  | .error _ => Except.ok ({ s1 with loading := false }, errorToast)

/-- The sequence of states the component passes through during one
fetchProducts call, from the setLoading(true) at the start to the
setLoading(false) in the finally block. -/
def fetchTrace (page : Nat) (o : FetchOutcome) (s : ViewState) :
    List ViewState :=
  let s1 := { s with loading := true }
  match tryBlock page o s1 with
  | .ok s2 => [s1, s2, { s2 with loading := false }]
  | .error _ => [s1, { s1 with loading := false }]

/-- Rendering condition of the Load More button (line 206):
hasMore && !loading. -/
def loadMoreShown (s : ViewState) : Bool := s.hasMore && !s.loading

/-- Rendering condition of the end-of-list message (line 219):
!hasMore && products.length > 0. -/
def endOfListShown (s : ViewState) : Bool :=
  !s.hasMore && decide (s.products.length > 0)

/-- handleLoadMore (lines 131-133): fetches page currentPage + 1. -/
def handleLoadMore (o : FetchOutcome) (s : ViewState) :
    ViewState × List String :=
  fetchProducts (s.currentPage + 1) o s

/-- Pages fetched by the mount effect (lines 127-129): the effect has an
empty dependency array, so it runs exactly once and issues the single
call fetchProducts(1). -/
def mountFetchCalls : List Nat := [1]

/-- State and notifications after the mount fetch completes with
outcome o. -/
def mount (o : FetchOutcome) : ViewState × List String :=
  fetchProducts 1 o initialState

/-- View states reachable at rest: the initial state, the state after
the mount fetch, and states after a Load More fetch triggered from a
reachable state in which the button is rendered. -/
inductive Reachable : ViewState → Prop where
  | init : Reachable initialState
  | mounted (o : FetchOutcome) : Reachable (mount o).1
  | step (s : ViewState) (o : FetchOutcome) :
      Reachable s → loadMoreShown s = true → Reachable (handleLoadMore o s).1

/-- Multi-step transition relation after mount: from a state, the only
way to initiate a fetch is the Load More button, which is rendered only
when loadMoreShown holds. -/
inductive Steps : ViewState → ViewState → Prop where
  | refl (s : ViewState) : Steps s s
  | more (s t : ViewState) (o : FetchOutcome) :
      Steps s t → loadMoreShown t = true → Steps s (handleLoadMore o t).1

/-- Run a sequence of fetchProducts calls (page, outcome) from a state. -/
def runFetches (s : ViewState) : List (Nat × FetchOutcome) → ViewState
  | [] => s
  | f :: fs => runFetches (fetchProducts f.1 f.2 s).1 fs

/-- Data returned by the most recent successful fetch in the list,
starting from accumulator acc. -/
def lastSuccessFrom (acc : Option (List Product)) :
    List (Nat × FetchOutcome) → Option (List Product)
  | [] => acc
  | f :: fs =>
      lastSuccessFrom (match f.2 with | .success d => some d | _ => acc) fs

/-- Data returned by the most recent successful fetch in the list, if any. -/
def lastSuccess (fs : List (Nat × FetchOutcome)) : Option (List Product) :=
  lastSuccessFrom none fs

/-- Two-digit rendering of a value below 100, as toFixed produces for
the fractional part. -/
def natPad2 (n : Nat) : String :=
  if n < 10 then "0" ++ toString n else toString n

/-- Left-pad the decimal rendering of m with zeros to k digits. -/
def padZeros (k : Nat) (m : Nat) : String :=
  let s := toString m
  String.mk (List.replicate (k - s.length) '0') ++ s

/-- Number.prototype.toFixed(2) for a nonnegative value q = num / den:
the integer n closest to 100 * q (larger n on ties, as ECMAScript
prescribes), rendered with two decimals.  Computed on the numerator and
denominator directly: n = floor((200 * num + den) / (2 * den)). -/
def toFixed2 (q : ℚ) : String :=
  let n := ((200 * q.num + (q.den : Int)).fdiv (2 * (q.den : Int))).toNat
  toString (n / 100) ++ "." ++ natPad2 (n % 100)

/-- Smallest k with den dividing 10 ^ k (searching k < 40). -/
def decExp (den : Nat) : Nat :=
  ((List.range 40).find? (fun k => 10 ^ k % den == 0)).getD 0

/-- Shortest decimal rendering of a nonnegative rational with a finite
decimal expansion: the string JavaScript produces when interpolating
such a number value. -/
def decimalToString (q : ℚ) : String :=
  let k := decExp q.den
  let n := ((q.num * (10 ^ k : Int)).fdiv (q.den : Int)).toNat
  if k = 0 then toString n
  else toString (n / 10 ^ k) ++ "." ++ padZeros k (n % 10 ^ k)

/-- Text of the Price cell (line 80): a dollar sign followed by the
price formatted with toFixed(2). -/
def priceCellText (price : ℚ) : String := "$" ++ toFixed2 price

/-- Text of the rating average in the Rating cell (line 94). -/
def ratingRateText (r : Rating) : String := decimalToString r.rate

/-- Text of the review-count line in the Rating cell (line 96). -/
def ratingCountText (r : Rating) : String :=
  "(" ++ toString r.count ++ " reviews)"

/-- A concrete product used to instantiate universally quantified
statements. -/
def sampleProduct : Product :=
  { id := 1, title := "Backpack", price := 2, description := "a bag",
    category := "bags", image := "img", rating := { rate := 4, count := 7 } }

/-- A concrete view state on page 1 with one product displayed, the
button rendered and no fetch in flight. -/
def pageOneState : ViewState :=
  { products := [sampleProduct], loading := false, currentPage := 1,
    hasMore := true }

/-- A concrete view state in which hasMore has already become false. -/
def noMoreState : ViewState :=
  { products := [], loading := false, currentPage := 2, hasMore := false }

/-- Helper: every fetchProducts call ends with loading = false, whatever
the outcome (the finally block). -/
theorem fetchProducts_loading_false (page : Nat) (o : FetchOutcome)
    (s : ViewState) : (fetchProducts page o s).1.loading = false := by
  cases o <;> rfl

/-- Helper: every reachable resting state has loading = false. -/
theorem reachable_loading_false (u : ViewState) (h : Reachable u) :
    u.loading = false := by
  induction h with
  | init => rfl
  | mounted o => exact fetchProducts_loading_false 1 o initialState
  | step s o hs hshown ih => exact fetchProducts_loading_false (s.currentPage + 1) o s

/-- Helper: hasMore after a run of fetches is determined by the most
recent successful fetch, threading the accumulator of lastSuccessFrom. -/
theorem runFetches_hasMore (fs : List (Nat × FetchOutcome)) :
    ∀ (s : ViewState) (acc : Option (List Product)),
      s.hasMore =
        (match acc with | some d => decide (d.length > 0) | none => true) →
      (runFetches s fs).hasMore =
        (match lastSuccessFrom acc fs with
          | some d => decide (d.length > 0) | none => true) := by
  induction fs with
  | nil => intro s acc h; exact h
  | cons f fs ih =>
      intro s acc h
      obtain ⟨pg, o⟩ := f
      cases o with
      | success d => exact ih _ (some d) rfl
      | httpError => exact ih _ acc h
      | networkError => exact ih _ acc h
      | parseError => exact ih _ acc h

/-- C1: for every successful fetch of page p, the state after the call
has products equal to exactly the returned sequence (replacement, not
accumulation), hasMore equal to (returned length > 0), and currentPage
equal to p. -/
theorem fetch_success_replaces (page : Nat) (data : List Product)
    (s : ViewState) :
    (fetchProducts page (.success data) s).1.products = data ∧
    (fetchProducts page (.success data) s).1.hasMore =
      decide (data.length > 0) ∧
    (fetchProducts page (.success data) s).1.currentPage = page := by
  refine ⟨rfl, rfl, rfl⟩

/-- C2: for every fetch that fails (any non-success outcome), the call
leaves products and currentPage unchanged, emits exactly one error
notification, and ends with loading = false. -/
theorem fetch_failure_rollback (page : Nat) (o : FetchOutcome)
    (s : ViewState) (h : ∀ d, o ≠ .success d) :
    (fetchProducts page o s).1.products = s.products ∧
    (fetchProducts page o s).1.currentPage = s.currentPage ∧
    (fetchProducts page o s).2.length = 1 ∧
    (fetchProducts page o s).1.loading = false := by
  cases o with
  | success d => exact absurd rfl (h d)
  | httpError => exact ⟨rfl, rfl, rfl, rfl⟩
  | networkError => exact ⟨rfl, rfl, rfl, rfl⟩
  | parseError => exact ⟨rfl, rfl, rfl, rfl⟩

/-- Witness for C2: a network rejection of a page-2 fetch from the
initial state changes neither products nor currentPage, emits one
notification, and ends not loading. -/
theorem fetch_failure_rollback_witness :
    (fetchProducts 2 .networkError initialState).1.products =
      initialState.products ∧
    (fetchProducts 2 .networkError initialState).1.currentPage =
      initialState.currentPage ∧
    (fetchProducts 2 .networkError initialState).2.length = 1 ∧
    (fetchProducts 2 .networkError initialState).1.loading = false :=
  fetch_failure_rollback 2 .networkError initialState (fun d h => nomatch h)

/-- C3: over any sequence of fetch calls from the initial state, hasMore
is false exactly when the most recent successful fetch returned the
empty sequence; in particular it is true before any successful fetch
and is untouched by failed fetches. -/
theorem hasMore_iff_last_fetch_empty (fs : List (Nat × FetchOutcome)) :
    (runFetches initialState fs).hasMore = false ↔
      lastSuccess fs = some [] := by
  have h := runFetches_hasMore fs initialState none rfl
  simp only [lastSuccess]
  rw [h]
  cases hls : lastSuccessFrom none fs with
  | none => simp
  | some d => simp [List.length_eq_zero]

/-- Counterexample for C4: Load More from page 1 with one product shown,
the API returning an empty page 2, leaves products empty and hasMore
false, but the end-of-list message is NOT shown (line 219 also requires
products.length > 0). -/
theorem loadMore_empty_page_counterexample :
    (handleLoadMore (.success []) pageOneState).1.products = [] ∧
    (handleLoadMore (.success []) pageOneState).1.hasMore = false ∧
    ¬ endOfListShown (handleLoadMore (.success []) pageOneState).1 = true :=
  ⟨rfl, rfl, fun h => nomatch h⟩

/-- C4 (amended): if Load More is triggered at currentPage = 1 and the
API returns 0 products for page 2, then products becomes empty and
hasMore becomes false, and the end-of-list message is not shown,
because its rendering condition also requires products to be
non-empty. -/
theorem loadMore_empty_page (s : ViewState) (h1 : s.currentPage = 1)
    (h2 : loadMoreShown s = true) :
    (handleLoadMore (.success []) s).1.products = [] ∧
    (handleLoadMore (.success []) s).1.hasMore = false ∧
    endOfListShown (handleLoadMore (.success []) s).1 = false :=
  ⟨rfl, rfl, rfl⟩

/-- Witness for C4 (amended), at the concrete one-product page-1 state. -/
theorem loadMore_empty_page_witness :
    (handleLoadMore (.success []) pageOneState).1.products = [] ∧
    (handleLoadMore (.success []) pageOneState).1.hasMore = false ∧
    endOfListShown (handleLoadMore (.success []) pageOneState).1 = false :=
  loadMore_empty_page pageOneState rfl rfl

/-- C5: a fetch call starts by setting loading = true, every state it
passes through before the last one has loading = true, its last state
is the state the call returns, that state has loading = false, and
every reachable resting state has loading = false. -/
theorem loading_lifecycle (page : Nat) (o : FetchOutcome) (s : ViewState) :
    (fetchTrace page o s).head? = some { s with loading := true } ∧
    (∀ t ∈ (fetchTrace page o s).dropLast, t.loading = true) ∧
    (fetchTrace page o s).getLast? = some (fetchProducts page o s).1 ∧
    (fetchProducts page o s).1.loading = false ∧
    (∀ u, Reachable u → u.loading = false) := by
  refine ⟨?_, ?_, ?_, fetchProducts_loading_false page o s,
    reachable_loading_false⟩
  · cases o <;> rfl
  · intro t ht
    cases o with
    | success d =>
        simp only [fetchTrace, tryBlock, List.dropLast, List.mem_cons,
          List.not_mem_nil, or_false] at ht
        rcases ht with h | h <;> subst h <;> rfl
    | httpError =>
        simp only [fetchTrace, tryBlock, List.dropLast, List.mem_cons,
          List.not_mem_nil, or_false] at ht
        subst ht; rfl
    | networkError =>
        simp only [fetchTrace, tryBlock, List.dropLast, List.mem_cons,
          List.not_mem_nil, or_false] at ht
        subst ht; rfl
    | parseError =>
        simp only [fetchTrace, tryBlock, List.dropLast, List.mem_cons,
          List.not_mem_nil, or_false] at ht
        subst ht; rfl
  · cases o <;> rfl

/-- Witness for C5: the initial state is reachable and not loading. -/
theorem loading_lifecycle_witness : initialState.loading = false :=
  (loading_lifecycle 1 .networkError initialState).2.2.2.2
    initialState Reachable.init

/-- C6: handleLoadMore runs fetchProducts on page currentPage + 1, and
the Load More control is rendered exactly when hasMore is true and
loading is false. -/
theorem loadMore_fetches_next_page (o : FetchOutcome) (s : ViewState) :
    handleLoadMore o s = fetchProducts (s.currentPage + 1) o s ∧
    (loadMoreShown s = true ↔ (s.hasMore = true ∧ s.loading = false)) := by
  refine ⟨rfl, ?_⟩
  simp [loadMoreShown, Bool.and_eq_true, Bool.not_eq_true']

/-- C7: the mount effect issues exactly the single call fetchProducts(1),
and if that call succeeds with 10 products then the state has
products.length = 10, hasMore = true and currentPage = 1. -/
theorem mount_fetches_page_one (data : List Product)
    (h : data.length = 10) :
    mountFetchCalls = [1] ∧
    (mount (.success data)).1.products.length = 10 ∧
    (mount (.success data)).1.hasMore = true ∧
    (mount (.success data)).1.currentPage = 1 := by
  refine ⟨rfl, h, ?_, rfl⟩
  show decide (data.length > 0) = true
  rw [h]
  decide

/-- Witness for C7, with a concrete 10-product response. -/
theorem mount_fetches_page_one_witness :
    mountFetchCalls = [1] ∧
    (mount (.success (List.replicate 10 sampleProduct))).1.products.length
      = 10 ∧
    (mount (.success (List.replicate 10 sampleProduct))).1.hasMore = true ∧
    (mount (.success (List.replicate 10 sampleProduct))).1.currentPage = 1 :=
  mount_fetches_page_one (List.replicate 10 sampleProduct) rfl

/-- C8: price 19.5 (mkRat 195 10) renders as the string with a dollar
sign and two decimals, and rating rate 4.3 with count 120 renders the
average and the review-count text. -/
theorem price_and_rating_formatting :
    priceCellText (mkRat 195 10) = "$19.50" ∧
    ratingRateText { rate := mkRat 43 10, count := 120 } = "4.3" ∧
    ratingCountText { rate := mkRat 43 10, count := 120 } =
      "(120 reviews)" := by
  exact ⟨by decide, by decide, by decide⟩

/-- C9: for every page, outcome and starting state, the promise returned
by fetchProducts resolves (is ok) with the caught result; no error
escapes to the callers. -/
theorem fetchProducts_always_resolves (page : Nat) (o : FetchOutcome)
    (s : ViewState) :
    fetchProductsRun page o s = Except.ok (fetchProducts page o s) := by
  cases o <;> rfl

/-- C10: once hasMore is false it stays false: along any sequence of
steps after mount (each step a Load More fetch, possible only while the
control is rendered), a state with hasMore = false never leads to a
state with hasMore = true. -/
theorem hasMore_false_is_absorbing (s t : ViewState) (hst : Steps s t)
    (h : s.hasMore = false) : t.hasMore = false := by
  induction hst with
  | refl => exact h
  | more t o hst hshown ih =>
      exfalso
      simp [loadMoreShown, ih] at hshown

/-- Witness for C10: the zero-step case from a state with hasMore
already false. -/
theorem hasMore_false_is_absorbing_witness : noMoreState.hasMore = false :=
  hasMore_false_is_absorbing noMoreState noMoreState
    (Steps.refl noMoreState) rfl
